import Mathlib

/-!
Shallow embedding of the two-phase harvesting pipeline of `hf_scraper`:
the Redis-backed sliding-window rate limiter and task queue
(`src/utils/redis_client.py`), the MongoDB persistence layer
(`src/utils/mongodb.py`), the polymorphic scraper pipeline
(`src/scraper/base_scraper.py`), the Model/Dataset scraper variants
(`src/scraper/model_scraper.py`, `src/scraper/dataset_scraper.py`),
and the downstream skip predicate (`src/graph/base.py`).
Python dict/JSON payloads are modelled by `Jval`; fallible Python code
(raising exceptions) is modelled with `Except String`; Mongo stores are
total functions from collection name and document id to an optional record.
-/

namespace HFScraper

/-- JSON-like values, the shape of the Python dict payloads the scraper
moves around (basic/extended metadata, task records, status blobs). -/
inductive Jval where
  | str (s : String)
  | num (n : Int)
  | bool (b : Bool)
  | null
  | arr (xs : List Jval)
  | obj (fields : List (String × Jval))

/-- Lookup of a key in a JSON object field list (Python `dict.get`,
first binding wins; the embedded producers never repeat keys). -/
def objGet (fields : List (String × Jval)) (key : String) : Option Jval :=
  (fields.find? (fun p => p.1 = key)).map Prod.snd

/-- Python `dict.get(key, default)` on a `Jval`; non-objects have no keys. -/
def dictGetD (j : Jval) (key : String) (dflt : Jval) : Jval :=
  match j with
  | .obj fields => (objGet fields key).getD dflt
  | _ => dflt

/-- Python truthiness of a JSON-like value (`bool(x)`):
`None`/`False`/`0`/empty string/empty list/empty dict are falsy. -/
def pyTruthy : Jval → Bool
  | .str s => !s.isEmpty
  | .num n => decide (n ≠ 0)
  | .bool b => b
  | .null => false
  | .arr xs => !xs.isEmpty
  | .obj fields => !fields.isEmpty

/-! ## Rate limiter (`src/utils/redis_client.py`, lines 14-47)

The Lua script runs atomically inside Redis.  Its sorted-set state is
modelled as a `Finset Nat`: the member written by `ZADD key now
tostring(now)` is the decimal string of its own score, so members and
scores are in bijection and a set of integer timestamps captures the
whole sorted set.  `ZREMRANGEBYSCORE key 0 (now - window)` removes every
member with score `≤ now - window` (the subtraction is over Lua numbers,
hence over `Int` here). -/

/-- `RedisClient.rate_limit_window = 60` (one-minute window). -/
def rate_limit_window : Nat := 60

/-- Result of one run of the rate-limit Lua script: the returned flag
(`true` ↔ the script returned 1, i.e. the call is rate-limited) and the
sorted-set state it leaves behind. -/
structure ScriptResult where
  limited : Bool
  state : Finset Nat

/-- The Lua script of `RedisClient` (lines 14-28), one atomic execution:
prune members with score `≤ now - window`, count the survivors, reject if
the count has reached `limit`, otherwise record `tostring(now)` with
score `now` and admit.  Note that `ZADD` with member `tostring(now)`
cannot add a second member for a timestamp already present. -/
def runRateLimitScript (state : Finset Nat) (now limit : Nat) : ScriptResult :=
  let start : Int := (now : Int) - (rate_limit_window : Int)
  let pruned : Finset Nat := state.filter (fun s => ¬ ((s : Int) ≤ start))
  if pruned.card ≥ limit then
    { limited := true, state := pruned }
  else
    { limited := false, state := insert now pruned }

/-- `RedisClient.is_rate_limited` returns `is_limited == 1`; a call is
admitted when the script returns 0. -/
def is_admitted (state : Finset Nat) (now limit : Nat) : Bool :=
  !(runRateLimitScript state now limit).limited

/-! ## Task queue (`src/utils/redis_client.py`, lines 55-76) -/

/-- The task record built by `RedisClient.create_task`; field names are
the JSON keys of the wire payload (`tid`, `iid`, `type`, `status`,
`retry_count`, `created_at`). -/
structure Task where
  tid : String
  iid : String
  type : String
  status : String
  retry_count : Nat
  created_at : String
deriving DecidableEq

/-- `RedisClient.create_task` (lines 55-68): builds the task record.
`task_id = f"{task_type}:{item_id}"`, `status = "pending"`,
`retry_count = 0` always, `created_at` is the clock reading passed in
for `datetime.now().isoformat()`. -/
def create_task (item_id task_type now : String) : Task :=
  { tid := task_type ++ ":" ++ item_id
    iid := item_id
    type := task_type
    status := "pending"
    retry_count := 0
    created_at := now }

/-- The wire payload `json.dumps` serialises for a task: the key/value
pairs of `task_data`, in the order the Python dict literal writes them. -/
def taskWire (t : Task) : List (String × Jval) :=
  [ ("tid", .str t.tid)
  , ("iid", .str t.iid)
  , ("type", .str t.type)
  , ("status", .str t.status)
  , ("retry_count", .num (t.retry_count : Int))
  , ("created_at", .str t.created_at) ]

/-- The Redis list a task of a given type is pushed to:
`f"tasks_{task_type}"`. -/
def taskChannel (task_type : String) : String := "tasks_" ++ task_type

/-- All Redis task lists, keyed by channel name; each entry is one
serialised task payload.  `LPUSH` prepends at the head. -/
def RedisQueues : Type := String → List (List (String × Jval))

/-- `create_task`'s write: `LPUSH tasks_<task_type> json.dumps(task_data)`,
one entry on the channel of the task's type, other channels untouched. -/
def create_task_push (qs : RedisQueues) (item_id task_type now : String) : RedisQueues :=
  fun ch =>
    if ch = taskChannel task_type then
      taskWire (create_task item_id task_type now) :: qs ch
    else qs ch

/-- A Redis-queue state with every channel empty. -/
def emptyQueues : RedisQueues := fun _ => []

/-- Single-channel view of the queue a scraper works on (its own
`tasks_<item_type>` list), as deserialised `Task` values.  `LPUSH`
prepends at the head... -/
def lpush (q : List Task) (t : Task) : List Task := t :: q

/-- ...and `RPOP` (in `RedisClient.get_task`) removes from the tail, so
the list is FIFO. -/
def rpop (q : List Task) : Option Task × List Task :=
  match q.getLast? with
  | none => (none, q)
  | some t => (some t, q.dropLast)

/-! ## MongoDB persistence (`src/utils/mongodb.py`) -/

/-- One document of the primary store
(`{_id, basic_metadata, extended_metadata, status: {phase, updated_at}}`);
absent fields are `none`. -/
structure ItemRecord where
  basic_metadata : Option Jval
  extended_metadata : Option Jval
  phase : Option String
  updated_at : Option String

/-- The primary store: collection name → document `_id` → document.
Document ids are modelled as strings; every `get_item_metadata` in the
repository produces a string `"id"` field. -/
def MongoDB : Type := String → String → Option ItemRecord

/-- The empty store. -/
def emptyDB : MongoDB := fun _ _ => none

/-- One `UpdateOne({_id: item["id"]}, {$set: {basic_metadata: item,
status: {...}}}, upsert=True)` of `bulk_upsert_basic_metadata`
(lines 27-42): with `upsert=True` a missing document is created;
`$set` leaves `extended_metadata` of an existing document alone and
replaces the whole `status` subdocument. -/
def upsert_basic_one (db : MongoDB) (collection id : String) (item : Jval)
    (now : String) : MongoDB :=
  fun c k =>
    if c = collection then
      if k = id then
        match db collection id with
        | some r => some { r with basic_metadata := some item
                                  phase := some "basic"
                                  updated_at := some now }
        | none => some { basic_metadata := some item
                         extended_metadata := none
                         phase := some "basic"
                         updated_at := some now }
      else db c k
    else db c k

/-- `item["id"]` as used to build the `UpdateOne` filters: raises
`KeyError` when the key is missing (and the embedding also rejects a
non-string id, since store keys are modelled as strings). -/
def metaItemId (item : Jval) : Except String String :=
  match item with
  | .obj fields =>
    match objGet fields "id" with
    | some (.str s) => .ok s
    | some _ => .error "TypeError: _id is not a string"
    | none => .error "KeyError: id"
  | _ => .error "TypeError: item is not a dict"

/-- `MongoDBClient.bulk_upsert_basic_metadata` (lines 27-42): the
operations list is built first (evaluating `item["id"]` for every item,
so a single missing id raises before anything is written), then
`bulk_write` applies all upserts. -/
def bulk_upsert_basic_metadata (db : MongoDB) (collection : String)
    (items : List Jval) (now : String) : Except String MongoDB :=
  items.foldlM
    (fun acc item => do
      let id ← metaItemId item
      return upsert_basic_one acc collection id item now)
    db

/-- `MongoDBClient.upsert_extended_metadata` (lines 49-60):
`update_one({_id: item_id}, {$set: {extended_metadata: metadata,
"status.phase": "extended", "status.updated_at": now}})` — note there is
no `upsert=True` here, so when no document matches `item_id` nothing is
written; dotted `$set` paths update the status fields in place. -/
def upsert_extended_metadata (db : MongoDB) (collection item_id : String)
    (metadata : Jval) (now : String) : MongoDB :=
  fun c k =>
    if c = collection then
      if k = item_id then
        match db collection item_id with
        | some r => some { r with extended_metadata := some metadata
                                  phase := some "extended"
                                  updated_at := some now }
        | none => none
      else db c k
    else db c k

/-! ## Pipeline driver, phase 1 (`src/scraper/base_scraper.py`, lines 64-102)

The abstract scraper contract: an item type `α` (the summary shape of
the variant) and the projections the variant implements.  Extraction is
`Except`-valued because a summary may make `get_item_metadata` /
`get_item_id` raise; `bulk_ok` says whether the `bulk_write` call itself
succeeds (shared-store reachability), and `now` is the clock reading
used for every `datetime.now().isoformat()` of the step. -/

structure ScrapeEnv (α : Type) where
  get_item_metadata : α → Except String Jval
  get_item_id : α → Except String String
  bulk_ok : Bool
  now : String
  item_type : String

/-- The loop body of `_record_extended_tasks` (lines 96-102): one
`create_task` per item id, pushed onto the scraper's channel. (The
per-id `try` of the Python loop only guards the Redis call, which the
queue model makes total.) -/
def record_extended_tasks (q : List Task) (ids : List String)
    (item_type now : String) : List Task :=
  ids.foldl (fun acc id => lpush acc (create_task id item_type now)) q

/-- `BaseScraper._batch_record` (lines 85-94) together with
`_record_extended_tasks` (lines 96-102), acting on the store and the
scraper's task queue:

* `item_metadata = [self.get_item_metadata(item) for item in batch]`
  runs *outside* the `try`, so a single raising item propagates the
  exception (nothing of the batch is persisted or enqueued);
* inside the `try`: the bulk upsert (whose operations list evaluates
  `item["id"]` for every item before writing), then
  `_record_extended_tasks`, whose `[self.get_item_id(item) for item in
  batch]` comprehension can raise after the upsert has been applied;
  any exception inside the `try` is caught and only logged. -/
def batch_record {α : Type} (env : ScrapeEnv α) (st : MongoDB × List Task)
    (batch : List α) : Except String (MongoDB × List Task) :=
  match batch.mapM env.get_item_metadata with
  | .error e => .error e
  | .ok item_metadata =>
    match bulk_upsert_basic_metadata st.1 env.item_type item_metadata env.now with
    | .error _ => .ok st
    | .ok db' =>
      if env.bulk_ok then
        match batch.mapM env.get_item_id with
        | .error _ => .ok (db', st.2)
        | .ok ids => .ok (db', record_extended_tasks st.2 ids env.item_type env.now)
      else .ok st

/-- The batch accumulator of `BaseScraper.scrape` (lines 66-76): items
are appended until `len(batch) >= batch_size`, each full batch is
flushed, and a non-empty remainder is flushed at the end. -/
def toBatches {α : Type} (batch_size : Nat) : List α → List α → List (List α)
  | acc, [] => if acc.isEmpty then [] else [acc]
  | acc, x :: xs =>
    let acc' := acc ++ [x]
    if batch_size ≤ acc'.length then acc' :: toBatches batch_size [] xs
    else toBatches batch_size acc' xs

/-- Flushing a list of batches in order: an exception escaping
`_batch_record` (metadata extraction, line 88) aborts the whole
enumeration, a caught one lets the loop continue with the next batch. -/
def scrapeBatches {α : Type} (env : ScrapeEnv α) :
    List (List α) → MongoDB × List Task → Except String (MongoDB × List Task)
  | [], st => .ok st
  | b :: bs, st =>
    match batch_record env st b with
    | .error e => .error e
    | .ok st' => scrapeBatches env bs st'

/-- `BaseScraper.scrape` (lines 64-83), phase 1: batch the listed items
and flush each batch through `_batch_record`. -/
def scrape {α : Type} (env : ScrapeEnv α) (batch_size : Nat) (items : List α)
    (st : MongoDB × List Task) : Except String (MongoDB × List Task) :=
  scrapeBatches env (toBatches batch_size [] items) st

/-! ## Pipeline driver, phase 2 (`src/scraper/base_scraper.py`, lines 104-157) -/

/-- `BaseScraper._process_single_task` (lines 134-157): fetch the
extended metadata of `task["iid"]` and upsert it into collection
`task["type"]`; on any exception, if `task.get("retry_count", 0) < 3`
re-enqueue via `create_task(task["iid"], task["type"])` (note:
`create_task` receives only the id and the type — the incremented
`task["retry_count"]` of line 154 is written into the local dict and
never passed on, so the fresh task carries `retry_count = 0`), otherwise
log the permanent failure and drop the task. -/
def process_single_task (fetch : String → Except String Jval) (now : String)
    (db : MongoDB) (q : List Task) (task : Task) : MongoDB × List Task :=
  match fetch task.iid with
  | .ok extended_metadata =>
    (upsert_extended_metadata db task.type task.iid extended_metadata now, q)
  | .error _ =>
    if task.retry_count < 3 then
      (db, lpush q (create_task task.iid task.type now))
    else
      (db, q)

/-- The drain loop at the top of `process_extended_tasks` (lines
107-112): pop up to `rate_limit // 2` tasks, stopping early when the
queue answers empty. -/
def drainTasks : Nat → List Task → List Task × List Task
  | 0, q => ([], q)
  | n + 1, q =>
    match rpop q with
    | (none, q') => ([], q')
    | (some t, q') =>
      let (ts, q'') := drainTasks n q'
      (t :: ts, q'')

/-- What one poll of the phase-2 loop decides to do next. -/
inductive PollOutcome where
  | done
  | waiting (sleepSeconds : Nat)
  | fetching (tasks : List Task)
deriving DecidableEq

/-- One iteration head of `process_extended_tasks` (lines 106-122):
drain; if nothing was drained and the basic stage is complete, break
(the loop is done); if nothing was drained otherwise, sleep 2 seconds
and re-poll; else process the drained tasks. -/
def poll_extended_tasks (rate_limit : Nat) (basic_stage : Bool)
    (q : List Task) : PollOutcome × List Task :=
  let drained := drainTasks (rate_limit / 2) q
  if drained.1.isEmpty then
    if basic_stage then (.done, drained.2)
    else (.waiting 2, drained.2)
  else (.fetching drained.1, drained.2)

/-- The shared state the phase-2 loop reads and writes: the primary
store, the scraper's task channel, and the `_basic_stage` flag set by
phase 1. -/
structure Phase2State where
  db : MongoDB
  queue : List Task
  basic_stage : Bool

/-- Processing one drained batch: `asyncio.gather` fans the single-task
steps out concurrently; each works on its own `task["iid"]`, and the
only shared writes are the store point-upserts and the requeue pushes,
which this embedding applies in drain order. -/
def process_batch (fetch : String → Except String Jval) (now : String)
    (db : MongoDB) (q : List Task) (tasks : List Task) : MongoDB × List Task :=
  tasks.foldl (fun st t => process_single_task fetch now st.1 st.2 t) (db, q)

/-- `BaseScraper.process_extended_tasks` (lines 104-132) with explicit
fuel (number of polls the run is observed for): `some s` means the loop
broke out (reached its terminal state) leaving state `s`, `none` means
it was still running when the fuel ran out. -/
def process_extended_tasks (fetch : String → Except String Jval) (now : String)
    (rate_limit : Nat) : Nat → Phase2State → Option Phase2State
  | 0, _ => none
  | fuel + 1, s =>
    match poll_extended_tasks rate_limit s.basic_stage s.queue with
    | (.done, q') => some { s with queue := q' }
    | (.waiting _, q') =>
      process_extended_tasks fetch now rate_limit fuel { s with queue := q' }
    | (.fetching ts, q') =>
      let st := process_batch fetch now s.db q' ts
      process_extended_tasks fetch now rate_limit fuel
        { s with db := st.1, queue := st.2 }

/-! ## Model scraper variant (`src/scraper/model_scraper.py`) -/

/-- The fields of `huggingface_hub.ModelInfo` that
`ModelScraper.get_item_metadata` and `list_items` read.  `card_data` is
the model card dict (or `None`); timestamps arrive pre-formatted since
only `isoformat()` of them is used.  (`gated` can also be a string on
the live API; the repository's code only stores it verbatim, and the
claims only need the boolean case.) -/
structure ModelInfo where
  id : String
  author : Option String
  created_at : Option String
  last_modified : Option String
  downloads : Option Int
  downloads_all_time : Option Int
  likes : Option Int
  card_data : Option (List (String × Jval))
  tags : List String
  library_name : Option String
  -- `private` is a Lean keyword; this field embeds `ModelInfo.private`
  private_flag : Bool
  disabled : Bool
  gated : Bool

/-- `x.isoformat() if x else None` for an optional pre-formatted string. -/
def optStr : Option String → Jval
  | some s => .str s
  | none => .null

/-- `x if x else None` for an optional integer counter: Python
truthiness sends both `None` and `0` to `None`. -/
def truthyInt : Option Int → Jval
  | some n => if n = 0 then .null else .num n
  | none => .null

/-- Python truthiness of the card-data dict: `None` and `{}` are falsy. -/
def cardDataTruthy : Option (List (String × Jval)) → Bool
  | some fields => !fields.isEmpty
  | none => false

/-- `model_info.card_data.get(key) if model_info.card_data else None`. -/
def cardDataGet (cd : Option (List (String × Jval))) (key : String) : Jval :=
  if cardDataTruthy cd then (objGet (cd.getD []) key).getD .null else .null

namespace ModelScraper

/-- `ModelScraper.FILTERED_TAG_PREFIXES` (lines 9-22). -/
def FILTERED_TAG_PREFIXES : List String :=
  [ "af", "am", "ar", "az", "be", "bg", "bn", "bs", "ca", "ceb"
  , "co", "cs", "cy", "da", "de", "el", "en", "eo", "es", "et"
  , "eu", "fa", "fi", "fr", "fy", "ga", "gd", "gl", "gu", "ha"
  , "haw", "he", "hi", "hmn", "hr", "ht", "hu", "hy", "id", "ig"
  , "is", "it", "iw", "ja", "jw", "ka", "kk", "km", "kn", "ko"
  , "ku", "ky", "la", "lb", "lo", "lt", "lv", "mg", "mi", "mk"
  , "ml", "mn", "mr", "ms", "mt", "my", "ne", "nl", "no", "ny"
  , "or", "pa", "pl", "ps", "pt", "ro", "ru", "rw", "sd", "si"
  , "sk", "sl", "sm", "sn", "so", "sq", "sr", "st", "su", "sv"
  , "sw", "ta", "te", "tg", "th", "tk", "tl", "tr", "tt", "ug"
  , "uk", "ur", "uz", "vi", "xh", "yi", "yo", "zh", "zu"
  , "base_model:", "license:", "region:", "language:", "dataset:" ]

/-- `ModelScraper._filter_tags` (lines 31-36). -/
def filter_tags (tags : List String) : List String :=
  tags.filter (fun tag => !FILTERED_TAG_PREFIXES.any (fun p => tag.startsWith p))

/-- `ModelScraper.get_item_id` (lines 28-29). -/
def get_item_id (m : ModelInfo) : String := m.id

/-- `ModelScraper.get_item_metadata` (lines 38-78), field for field;
the status flags `{private, disabled, gated}` are *recorded* under
`"status"`, and nothing here filters on them. -/
def get_item_metadata (m : ModelInfo) : Jval :=
  .obj
    [ ("id", .str m.id)
    , ("author", optStr m.author)
    , ("created_at", optStr m.created_at)
    , ("last_modified", optStr m.last_modified)
    , ("downloads", .obj
        [ ("current", truthyInt m.downloads)
        , ("all_time", truthyInt m.downloads_all_time) ])
    , ("likes", truthyInt m.likes)
    , ("card_data",
        if cardDataTruthy m.card_data then
          .obj
            [ ("base_model", cardDataGet m.card_data "base_model")
            , ("datasets", cardDataGet m.card_data "datasets")
            , ("license", .obj
                [ ("name", cardDataGet m.card_data "license")
                , ("link", cardDataGet m.card_data "license_link") ])
            , ("pipeline_tag", cardDataGet m.card_data "pipeline_tag")
            , ("base_model_relation", cardDataGet m.card_data "base_model_relation") ]
        else .null)
    , ("tags", .arr ((filter_tags m.tags).map .str))
    , ("library_name", optStr m.library_name)
    , ("status", .obj
        [ ("private", .bool m.private_flag)
        , ("disabled", .bool m.disabled)
        , ("gated", .bool m.gated) ]) ]

/-- The filter stage of `ModelScraper.list_items` (lines 100-102):
`if any(x in set(model.tags) for x in self.tags): yield model`.  When
`self.tags` is `None` (the constructor's and the CLI's default), the
generator iterates `None` and raises `TypeError` at the first model; an
empty listing never evaluates the predicate and yields nothing. -/
def list_items_filter (tags : Option (List String)) (models : List ModelInfo) :
    Except String (List ModelInfo) :=
  match tags with
  | some ts => .ok (models.filter (fun m => ts.any (fun x => m.tags.contains x)))
  | none =>
    match models with
    | [] => .ok []
    | _ :: _ => .error "TypeError: argument of type NoneType is not iterable"

end ModelScraper

/-! ## Dataset scraper variant (`src/scraper/dataset_scraper.py`) -/

/-- The fields of `huggingface_hub.DatasetInfo` read by the tag-filter
stage of `DatasetScraper.list_items`. -/
structure DatasetInfo where
  id : String
  tags : List String
deriving DecidableEq

namespace DatasetScraper

/-- Python truthiness of `self.tags` (`if self.tags:`): `None` and the
empty list are falsy. -/
def tagsTruthy : Option (List String) → Bool
  | some ts => !ts.isEmpty
  | none => false

/-- The filter stage of `DatasetScraper.list_items` (lines 106-114):
with a truthy tag list, yield the datasets whose tag set intersects it;
otherwise yield every dataset of the underlying iterator. -/
def list_items_filter (tags : Option (List String)) (datasets : List DatasetInfo) :
    List DatasetInfo :=
  if tagsTruthy tags then
    datasets.filter (fun d => (tags.getD []).any (fun x => d.tags.contains x))
  else datasets

end DatasetScraper

/-! ## Downstream skip predicate (`src/graph/base.py`, lines 13-15) -/

namespace BaseMigrator

/-- `BaseMigrator._should_skip`: the only place in the repository that
filters on the `{private, disabled, gated}` status flags — it runs in
the graph migration, downstream of the primary store. -/
def should_skip (status : Jval) : Bool :=
  pyTruthy (dictGetD status "private" (.bool false))
    || pyTruthy (dictGetD status "disabled" (.bool false))
    || pyTruthy (dictGetD status "gated" (.bool false))

end BaseMigrator

/-! ## Concrete fixtures used by the claim theorems -/

/-- A fetch that fails on every attempt (permanent network failure). -/
def alwaysFail : String → Except String Jval := fun _ => .error "network error"

/-- One pop-and-process cycle of the phase-2 worker against a fetch that
always fails: drain one task and run `_process_single_task` on it. -/
def failCycle (now : String) (st : MongoDB × List Task) : MongoDB × List Task :=
  match rpop st.2 with
  | (none, q') => (st.1, q')
  | (some t, q') => process_single_task alwaysFail now st.1 q' t

/-- A summary tagged `{"nlp", "pytorch"}` (spec §8 tag-filter example). -/
def nlpPytorchModel : ModelInfo :=
  { id := "org/nlp-model", author := some "org", created_at := none
    last_modified := none, downloads := none, downloads_all_time := none
    likes := none, card_data := none, tags := ["nlp", "pytorch"]
    library_name := none, private_flag := false, disabled := false, gated := false }

/-- A summary tagged `{"cv"}`. -/
def cvModel : ModelInfo :=
  { id := "org/cv-model", author := some "org", created_at := none
    last_modified := none, downloads := none, downloads_all_time := none
    likes := none, card_data := none, tags := ["cv"]
    library_name := none, private_flag := false, disabled := false, gated := false }

/-- A summary with an empty tag set. -/
def untaggedModel : ModelInfo :=
  { id := "org/untagged-model", author := some "org", created_at := none
    last_modified := none, downloads := none, downloads_all_time := none
    likes := none, card_data := none, tags := []
    library_name := none, private_flag := false, disabled := false, gated := false }

/-- Dataset summaries with the same three tag sets. -/
def nlpDataset : DatasetInfo := { id := "org/nlp-data", tags := ["nlp", "pytorch"] }

def cvDataset : DatasetInfo := { id := "org/cv-data", tags := ["cv"] }

def untaggedDataset : DatasetInfo := { id := "org/untagged-data", tags := [] }

/-- The `ScrapeEnv` of a `ModelScraper` whose extraction never raises:
its projections are the (total) `ModelScraper` ones, its collection and
queue partition is `item_type = "models"`. -/
def modelScrapeEnv (now : String) (bulk_ok : Bool) : ScrapeEnv ModelInfo :=
  { get_item_metadata := fun it => .ok (ModelScraper.get_item_metadata it)
    get_item_id := fun it => .ok (ModelScraper.get_item_id it)
    bulk_ok := bulk_ok
    now := now
    item_type := "models" }

/-- A summary whose `private` status flag is truthy. -/
def privateModel : ModelInfo :=
  { id := "org/private-model", author := some "org", created_at := none
    last_modified := none, downloads := none, downloads_all_time := none
    likes := none, card_data := none, tags := ["nlp"]
    library_name := none, private_flag := true, disabled := false, gated := false }

/-- An extraction environment where the summary `"bad"` makes
`get_item_metadata` raise and every other summary extracts cleanly. -/
def badMetadataEnv : ScrapeEnv String :=
  { get_item_metadata := fun it =>
      if it = "bad" then .error "AttributeError: created_at"
      else .ok (.obj [("id", .str it)])
    get_item_id := fun it => .ok it
    bulk_ok := true
    now := "t0"
    item_type := "models" }

/-- An environment where metadata extraction succeeds for every summary
but `get_item_id` raises on `"bad"`. -/
def badIdEnv : ScrapeEnv String :=
  { get_item_metadata := fun it => .ok (.obj [("id", .str it)])
    get_item_id := fun it => if it = "bad" then .error "AttributeError: id" else .ok it
    bulk_ok := true
    now := "t0"
    item_type := "models" }

/-- An environment whose extraction is clean but whose `bulk_write`
call fails (shared store unreachable for the write). -/
def bulkFailEnv : ScrapeEnv String :=
  { get_item_metadata := fun it => .ok (.obj [("id", .str it)])
    get_item_id := fun it => .ok it
    bulk_ok := false
    now := "t0"
    item_type := "models" }

/-- An environment where everything succeeds. -/
def goodEnv : ScrapeEnv String :=
  { get_item_metadata := fun it => .ok (.obj [("id", .str it)])
    get_item_id := fun it => .ok it
    bulk_ok := true
    now := "t0"
    item_type := "models" }

/-! ## Claim theorems -/

/-- C1: the claim says a failed fetch with `retry_count < 3` re-enqueues
the task with `retry_count + 1` and an always-failing task is attempted
at most 4 times and then never reappears.  The code re-enqueues through
`create_task(task["iid"], task["type"])`, which always writes
`retry_count = 0` (the incremented count of line 154 is never passed
on), so after any number `n` of failed attempts the queue again holds
exactly one task for `("m", "models")` carrying `retry_count = 0`: the
task reappears forever and the `retry_count >= 3` drop branch is
unreachable for tasks that came from the queue. -/
theorem retry_count_never_carried (n : Nat) :
    ((failCycle "t0")^[n] (emptyDB, [create_task "m" "models" "t0"])).2
        = [create_task "m" "models" "t0"]
  ∧ (create_task "m" "models" "t0").retry_count = 0 := by
  have h : failCycle "t0" (emptyDB, [create_task "m" "models" "t0"])
      = (emptyDB, [create_task "m" "models" "t0"]) := rfl
  rw [Function.iterate_fixed h]
  exact ⟨rfl, rfl⟩

/-- C2: the claim says at most `L` calls are admitted per key within any
trailing 60-unit window.  Three consecutive script runs at the same
timestamp 100 with `limit = 2` are all admitted: the second admission's
`ZADD` writes the member `tostring(100)` that the first admission
already created, so `ZCARD` stays at 1 and every further call in the
same second is admitted — 3 admissions (in fact unboundedly many) inside
one window despite `L = 2`. -/
theorem rate_limiter_admits_over_limit :
    is_admitted ∅ 100 2 = true
  ∧ is_admitted (runRateLimitScript ∅ 100 2).state 100 2 = true
  ∧ is_admitted ((runRateLimitScript (runRateLimitScript ∅ 100 2).state 100 2).state)
        100 2 = true
  ∧ (runRateLimitScript (runRateLimitScript ∅ 100 2).state 100 2).state
        = (runRateLimitScript ∅ 100 2).state := by
  decide

/-- C7: the claim says a configured tag filter yields exactly the
intersecting summaries (this part holds, for both variants, on the
spec's own example) and that an absent filter yields all summaries —
but `ModelScraper.list_items` evaluates
`any(x in set(model.tags) for x in self.tags)` with `self.tags = None`
(the constructor's and the CLI's default), raising `TypeError` at the
first summary instead of yielding it; only `DatasetScraper` implements
the absent-filter case. -/
theorem model_list_none_tags_raises :
    ModelScraper.list_items_filter none [nlpPytorchModel]
        = .error "TypeError: argument of type NoneType is not iterable"
  ∧ ModelScraper.list_items_filter (some ["nlp"])
        [nlpPytorchModel, cvModel, untaggedModel] = .ok [nlpPytorchModel]
  ∧ DatasetScraper.list_items_filter none [nlpDataset, cvDataset] = [nlpDataset, cvDataset]
  ∧ DatasetScraper.list_items_filter (some ["nlp"])
        [nlpDataset, cvDataset, untaggedDataset] = [nlpDataset] :=
  ⟨rfl, rfl, rfl, rfl⟩

/-- C8 counterexample: the claim names the serialized fields
`{task_id, item_id, type, status, retry_count, created_at}`, but the
payload `create_task` serialises carries the keys `tid` and `iid` in
place of `task_id` and `item_id`. -/
theorem task_wire_keys_cex :
    ((taskWire (create_task "bert-base-uncased" "models" "2024-01-01T00:00:00")).map
        Prod.fst = ["tid", "iid", "type", "status", "retry_count", "created_at"])
  ∧ ((taskWire (create_task "bert-base-uncased" "models" "2024-01-01T00:00:00")).map
        Prod.fst ≠ ["task_id", "item_id", "type", "status", "retry_count", "created_at"]) := by
  exact ⟨rfl, by decide⟩

/-- C8 amended: every task pushed onto the queue is serialized with
fields `{tid, iid, type, status, retry_count, created_at}` (`tid`/`iid`
abbreviating task id and item id), with `tid = "{item_type}:{item_id}"`
and `retry_count = 0`, one task per queue entry, appended to the
per-item_type channel `"tasks_<item_type>"` and to no other channel. -/
theorem task_wire_format (item_id task_type now ch : String) (qs : RedisQueues)
    (hch : ch ≠ taskChannel task_type) :
    (taskWire (create_task item_id task_type now)).map Prod.fst
        = ["tid", "iid", "type", "status", "retry_count", "created_at"]
  ∧ (create_task item_id task_type now).tid = task_type ++ ":" ++ item_id
  ∧ (create_task item_id task_type now).retry_count = 0
  ∧ create_task_push qs item_id task_type now (taskChannel task_type)
      = taskWire (create_task item_id task_type now) :: qs (taskChannel task_type)
  ∧ create_task_push qs item_id task_type now ch = qs ch := by
  refine ⟨rfl, rfl, rfl, ?_, ?_⟩
  · simp [create_task_push]
  · simp [create_task_push, hch]

/-- Witness for the C8 amended theorem at a concrete task and channel. -/
theorem task_wire_format_witness :
    ("tasks_other" ≠ taskChannel "models")
  ∧ ((taskWire (create_task "m" "models" "t0")).map Prod.fst
        = ["tid", "iid", "type", "status", "retry_count", "created_at"]
      ∧ (create_task "m" "models" "t0").tid = "models" ++ ":" ++ "m"
      ∧ (create_task "m" "models" "t0").retry_count = 0
      ∧ create_task_push emptyQueues "m" "models" "t0" (taskChannel "models")
          = taskWire (create_task "m" "models" "t0") :: emptyQueues (taskChannel "models")
      ∧ create_task_push emptyQueues "m" "models" "t0" "tasks_other"
          = emptyQueues "tasks_other") :=
  ⟨by decide, task_wire_format "m" "models" "t0" "tasks_other" emptyQueues (by decide)⟩

/-- C3 counterexample: the claim says a summary with a truthy status
flag never reaches the primary store or the task queue, but running the
phase-1 batch step on `privateModel` (whose `private` flag is true)
persists a record for it under `"models"` and enqueues a task for it. -/
theorem flagged_model_not_excluded_cex :
    privateModel.private_flag = true
  ∧ ((batch_record (modelScrapeEnv "t0" true) (emptyDB, []) [privateModel]).map
        (fun st => ((st.1 "models" "org/private-model").isSome, st.2))
      = .ok (true, [create_task "org/private-model" "models" "t0"])) :=
  ⟨rfl, rfl⟩

/-- C3 amended: summaries with truthy `{private, disabled, gated}` flags
are NOT excluded by the scraping pipeline: the batch step persists their
record (the flags merely recorded under `basic_metadata.status`) and
enqueues their task like any other summary; the only status-flag
exclusion in the repository is the downstream graph migration's
`_should_skip`, which flags exactly these summaries. -/
theorem flagged_model_reaches_store_and_queue (m : ModelInfo) (db : MongoDB)
    (q : List Task) (now : String)
    (hflag : m.private_flag = true ∨ m.disabled = true ∨ m.gated = true) :
    batch_record (modelScrapeEnv now true) (db, q) [m]
      = .ok (upsert_basic_one db "models" m.id (ModelScraper.get_item_metadata m) now,
             lpush q (create_task m.id "models" now))
  ∧ BaseMigrator.should_skip
      (dictGetD (ModelScraper.get_item_metadata m) "status" .null) = true := by
  constructor
  · rfl
  · show ((m.private_flag || m.disabled) || m.gated) = true
    rcases hflag with h | h | h <;> simp [h]

/-- Witness for the C3 amended theorem at the concrete `privateModel`. -/
theorem flagged_model_reaches_store_and_queue_witness :
    (privateModel.private_flag = true ∨ privateModel.disabled = true
        ∨ privateModel.gated = true)
  ∧ (batch_record (modelScrapeEnv "t0" true) (emptyDB, []) [privateModel]
        = .ok (upsert_basic_one emptyDB "models" privateModel.id
                 (ModelScraper.get_item_metadata privateModel) "t0",
               lpush [] (create_task privateModel.id "models" "t0"))
      ∧ BaseMigrator.should_skip
          (dictGetD (ModelScraper.get_item_metadata privateModel) "status" .null) = true) :=
  ⟨Or.inl rfl,
    flagged_model_reaches_store_and_queue privateModel emptyDB [] "t0" (Or.inl rfl)⟩

/-- C4 counterexample: with the batch `["good", "bad"]`, a metadata
extraction failure on `"bad"` makes `_batch_record` raise (the
exception propagates; nothing of the batch, `"good"` included, is
persisted or enqueued), and an id-extraction failure on `"bad"` is
caught only at batch level: both items get persisted by the bulk upsert
but NO task — not even for `"good"` — is enqueued.  In neither case is
the failing item skipped while the rest of the batch proceeds. -/
theorem extraction_failure_aborts_batch_cex :
    batch_record badMetadataEnv (emptyDB, []) ["good", "bad"]
        = .error "AttributeError: created_at"
  ∧ ((batch_record badIdEnv (emptyDB, []) ["good", "bad"]).map
        (fun st => ((st.1 "models" "good").isSome, (st.1 "models" "bad").isSome, st.2))
      = .ok (true, true, [])) :=
  ⟨rfl, rfl⟩

/-- C4 amended: a single failing item is not isolated.  If any item of
the batch makes `get_item_metadata` raise, `_batch_record` propagates
the exception and the whole phase-1 enumeration aborts (nothing of the
batch is persisted or enqueued); if metadata extraction and the bulk
upsert succeed but some item's `get_item_id` raises, the exception is
caught and logged at batch level: the whole batch is persisted but none
of its tasks is enqueued. -/
theorem batch_failures_not_isolated {α : Type} (env env2 : ScrapeEnv α)
    (st st2 : MongoDB × List Task) (batch batch2 : List α) (e e2 : String)
    (bs : List (List α)) (mds : List Jval) (db' : MongoDB)
    (h1 : batch.mapM env.get_item_metadata = .error e)
    (h2 : batch2.mapM env2.get_item_metadata = .ok mds)
    (h3 : bulk_upsert_basic_metadata st2.1 env2.item_type mds env2.now = .ok db')
    (h4 : env2.bulk_ok = true)
    (h5 : batch2.mapM env2.get_item_id = .error e2) :
    batch_record env st batch = .error e
  ∧ scrapeBatches env (batch :: bs) st = .error e
  ∧ batch_record env2 st2 batch2 = .ok (db', st2.2) := by
  have hb : batch_record env st batch = .error e := by
    simp only [batch_record, h1]
  refine ⟨hb, ?_, ?_⟩
  · simp only [scrapeBatches, hb]
  · simp only [batch_record, h2, h3, h4, h5, if_true]

/-- Witness for the C4 amended theorem: `badMetadataEnv` on
`["good", "bad"]` for the propagating case, `badIdEnv` on the same batch
for the caught case. -/
theorem batch_failures_not_isolated_witness :
    (["good", "bad"].mapM badMetadataEnv.get_item_metadata
        = .error "AttributeError: created_at")
  ∧ (["good", "bad"].mapM badIdEnv.get_item_metadata
        = .ok [.obj [("id", .str "good")], .obj [("id", .str "bad")]])
  ∧ (["good", "bad"].mapM badIdEnv.get_item_id = .error "AttributeError: id")
  ∧ (batch_record badMetadataEnv (emptyDB, []) ["good", "bad"]
        = .error "AttributeError: created_at"
      ∧ scrapeBatches badMetadataEnv (["good", "bad"] :: []) (emptyDB, [])
          = .error "AttributeError: created_at"
      ∧ batch_record badIdEnv (emptyDB, []) ["good", "bad"]
          = .ok (upsert_basic_one
                   (upsert_basic_one emptyDB "models" "good" (.obj [("id", .str "good")]) "t0")
                   "models" "bad" (.obj [("id", .str "bad")]) "t0",
                 [])) :=
  ⟨rfl, rfl, rfl,
    batch_failures_not_isolated badMetadataEnv badIdEnv (emptyDB, []) (emptyDB, [])
      ["good", "bad"] ["good", "bad"] "AttributeError: created_at" "AttributeError: id"
      [] [.obj [("id", .str "good")], .obj [("id", .str "bad")]]
      (upsert_basic_one
        (upsert_basic_one emptyDB "models" "good" (.obj [("id", .str "good")]) "t0")
        "models" "bad" (.obj [("id", .str "bad")]) "t0")
      rfl rfl rfl rfl rfl⟩

/-- C5: in the phase-2 worker loop, a drain that returns zero tasks
while phase 1 is complete makes the loop break out at that very poll —
`process_extended_tasks` returns its terminal `some` state within the
first polling interval, for any remaining fuel, any fetch behaviour and
any clock, and being a returned value it can never resume; a drain that
returns zero tasks while phase 1 is still running makes the poll answer
`waiting 2` (sleep the fixed 2-second interval, then re-poll). -/
theorem phase2_empty_drain_behavior (fetch : String → Except String Jval)
    (now : String) (rate_limit : Nat) (s s2 : Phase2State) (fuel : Nat)
    (hdrain : (drainTasks (rate_limit / 2) s.queue).1 = [])
    (hdone : s.basic_stage = true)
    (hdrain2 : (drainTasks (rate_limit / 2) s2.queue).1 = [])
    (hrun : s2.basic_stage = false) :
    process_extended_tasks fetch now rate_limit (fuel + 1) s
        = some { s with queue := (drainTasks (rate_limit / 2) s.queue).2 }
  ∧ poll_extended_tasks rate_limit s2.basic_stage s2.queue
        = (.waiting 2, (drainTasks (rate_limit / 2) s2.queue).2) := by
  constructor
  · have hp : poll_extended_tasks rate_limit s.basic_stage s.queue
        = (.done, (drainTasks (rate_limit / 2) s.queue).2) := by
      simp [poll_extended_tasks, hdrain, hdone]
    simp [process_extended_tasks, hp]
  · simp [poll_extended_tasks, hdrain2, hrun]

/-- Witness for the C5 theorem: an empty queue with phase 1 complete
terminates at the first poll; an empty queue with phase 1 running polls
`waiting 2`. -/
theorem phase2_empty_drain_behavior_witness :
    ((drainTasks (10 / 2) (Phase2State.mk emptyDB [] true).queue).1 = []
      ∧ (Phase2State.mk emptyDB [] true).basic_stage = true
      ∧ (drainTasks (10 / 2) (Phase2State.mk emptyDB [] false).queue).1 = []
      ∧ (Phase2State.mk emptyDB [] false).basic_stage = false)
  ∧ (process_extended_tasks alwaysFail "t0" 10 1 (Phase2State.mk emptyDB [] true)
        = some { Phase2State.mk emptyDB [] true with
                   queue := (drainTasks (10 / 2) (Phase2State.mk emptyDB [] true).queue).2 }
      ∧ poll_extended_tasks 10 (Phase2State.mk emptyDB [] false).basic_stage
            (Phase2State.mk emptyDB [] false).queue
          = (.waiting 2, (drainTasks (10 / 2) (Phase2State.mk emptyDB [] false).queue).2)) :=
  ⟨⟨rfl, rfl, rfl, rfl⟩,
    phase2_empty_drain_behavior alwaysFail "t0" 10 (Phase2State.mk emptyDB [] true)
      (Phase2State.mk emptyDB [] false) 0 rfl rfl rfl rfl⟩

/-- C6: when the bulk basic-metadata upsert of a batch fails, the
failure is caught and logged, not re-raised (`_batch_record` returns
normally with the store and the queue unchanged), so the enumeration
continues with the next batch; and whenever a batch step changes the
queue at all, its bulk write must have succeeded — tasks are enqueued
only after the bulk upsert of the same batch. -/
theorem bulk_failure_logged_not_raised {α : Type} (env env2 : ScrapeEnv α)
    (st st2 : MongoDB × List Task) (batch batch2 : List α) (mds : List Jval)
    (res : MongoDB × List Task) (bs : List (List α))
    (h1 : batch.mapM env.get_item_metadata = .ok mds)
    (h2 : env.bulk_ok = false)
    (h3 : batch_record env2 st2 batch2 = .ok res)
    (h4 : res.2 ≠ st2.2) :
    batch_record env st batch = .ok st
  ∧ env2.bulk_ok = true
  ∧ scrapeBatches env2 (batch2 :: bs) st2 = scrapeBatches env2 bs res := by
  refine ⟨?_, ?_, ?_⟩
  · simp only [batch_record, h1]
    cases bulk_upsert_basic_metadata st.1 env.item_type mds env.now with
    | error e => rfl
    | ok db' => simp [h2]
  · cases hb : env2.bulk_ok with
    | true => rfl
    | false =>
      exfalso
      apply h4
      simp only [batch_record] at h3
      cases hm : batch2.mapM env2.get_item_metadata with
      | error e => exact (Except.noConfusion (by simpa only [hm] using h3))
      | ok mds2 =>
        simp only [hm] at h3
        cases hbu : bulk_upsert_basic_metadata st2.1 env2.item_type mds2 env2.now with
        | error e =>
          simp only [hbu, Except.ok.injEq] at h3
          rw [← h3]
        | ok db' =>
          simp only [hbu, hb, Bool.false_eq_true, if_false, Except.ok.injEq] at h3
          rw [← h3]
  · simp only [scrapeBatches, h3]

/-- Witness for the C6 theorem: `bulkFailEnv` on `["good"]` for the
caught bulk failure, `goodEnv` on `["good"]` (which does enqueue a task)
for the tasks-only-after-success and continuation parts. -/
theorem bulk_failure_logged_not_raised_witness :
    (["good"].mapM bulkFailEnv.get_item_metadata = .ok [.obj [("id", .str "good")]]
      ∧ bulkFailEnv.bulk_ok = false
      ∧ batch_record goodEnv (emptyDB, []) ["good"]
          = .ok (upsert_basic_one emptyDB "models" "good" (.obj [("id", .str "good")]) "t0",
                 [create_task "good" "models" "t0"])
      ∧ ([create_task "good" "models" "t0"] : List Task) ≠ [])
  ∧ (batch_record bulkFailEnv (emptyDB, []) ["good"] = .ok (emptyDB, [])
      ∧ goodEnv.bulk_ok = true
      ∧ scrapeBatches goodEnv (["good"] :: []) (emptyDB, [])
          = scrapeBatches goodEnv []
              (upsert_basic_one emptyDB "models" "good" (.obj [("id", .str "good")]) "t0",
               [create_task "good" "models" "t0"])) :=
  ⟨⟨rfl, rfl, rfl, by decide⟩,
    bulk_failure_logged_not_raised bulkFailEnv goodEnv (emptyDB, []) (emptyDB, [])
      ["good"] ["good"] [.obj [("id", .str "good")]]
      (upsert_basic_one emptyDB "models" "good" (.obj [("id", .str "good")]) "t0",
       [create_task "good" "models" "t0"])
      [] rfl rfl rfl (by decide)⟩

/-- Helper: a second extended-metadata point upsert for the same
collection, id and payload absorbs the first — `$set` overwrites the
extended fields and the status, and matches exactly when the first
did. -/
theorem upsert_extended_metadata_absorb (db : MongoDB) (c i : String)
    (m : Jval) (ta tb : String) :
    upsert_extended_metadata (upsert_extended_metadata db c i m ta) c i m tb
      = upsert_extended_metadata db c i m tb := by
  funext c' k
  by_cases hc : c' = c
  · subst hc
    by_cases hk : k = i
    · subst hk
      simp only [upsert_extended_metadata, if_pos rfl]
      cases db c' k <;> rfl
    · simp [upsert_extended_metadata, hk]
  · simp [upsert_extended_metadata, hc]

/-- C9: applying the extended fetch-and-persist step of
`_process_single_task` twice for the same task yields exactly the store
and queue state of applying it once, assuming the remote detail is
unchanged (the fetch is a fixed function of the item id): the second
`update_one` `$set` overwrites `extended_metadata`, `status.phase` and
`status.updated_at` with the same values the single application writes,
and a successful step leaves the queue untouched. -/
theorem extended_upsert_idempotent (fetch : String → Jval) (db : MongoDB)
    (q : List Task) (task : Task) (t t' : String) :
    process_single_task (fun i => .ok (fetch i)) t'
        (process_single_task (fun i => .ok (fetch i)) t db q task).1 q task
      = process_single_task (fun i => .ok (fetch i)) t' db q task := by
  show (upsert_extended_metadata
          (upsert_extended_metadata db task.type task.iid (fetch task.iid) t)
          task.type task.iid (fetch task.iid) t', q)
      = (upsert_extended_metadata db task.type task.iid (fetch task.iid) t', q)
  rw [upsert_extended_metadata_absorb]

/-- C10: for an `item_id` with no document in the target collection,
`upsert_extended_metadata` — an `update_one` with no `upsert=True` —
matches nothing and leaves the whole store unchanged: an extended write
takes effect only for ids that already have a record. -/
theorem extended_update_without_upsert_noop (db : MongoDB)
    (collection item_id : String) (metadata : Jval) (now : String)
    (h : db collection item_id = none) :
    upsert_extended_metadata db collection item_id metadata now = db := by
  funext c k
  unfold upsert_extended_metadata
  by_cases hc : c = collection
  · subst hc
    by_cases hk : k = item_id
    · subst hk
      simp [h]
    · simp [hk]
  · simp [hc]

/-- Witness for the C10 theorem: the empty store has no document for
`"ghost"`, and the extended persist for it leaves the store equal to
itself. -/
theorem extended_update_without_upsert_noop_witness :
    (emptyDB "models" "ghost" = none)
  ∧ upsert_extended_metadata emptyDB "models" "ghost" (.obj []) "t0" = emptyDB :=
  ⟨rfl, extended_update_without_upsert_noop emptyDB "models" "ghost" (.obj []) "t0" rfl⟩

end HFScraper
